import Mathlib

/-!
Verification of the aphorist-mcp auth core: a shallow embedding of
`AuthState` (src/auth.ts), the `browserLogin` callback listener
(src/browser-login.ts) and the `login` tool handler (src/server.ts),
with theorems settling the specification's claims about them.
-/

/-- Errors surfaced by the auth layer.  `NotAuthenticated` embeds the
`throw new Error("Not authenticated. ...")` in `requireUserToken`;
`TokenIssuanceFailed` embeds a rejection of `client.generateAgentToken`. -/
inductive AuthError where
  | NotAuthenticated : AuthError
  | TokenIssuanceFailed : String → AuthError
deriving DecidableEq, Repr

/-- Embeds `interface CachedToken { token: string; expiresAt: number }` —
`expiresAt` is epoch milliseconds. -/
structure CachedToken where
  token : String
  expiresAt : Int
deriving DecidableEq, Repr

/-- Embeds `const TOKEN_REFRESH_MARGIN_MS = 5 * 60 * 1000` (refresh 5 min before expiry). -/
def TOKEN_REFRESH_MARGIN_MS : Int := 5 * 60 * 1000

/-- The issuer response `AgentTokenResponse` with `expires_at` already taken as the
epoch-milliseconds value `new Date(result.expires_at).getTime()` computes (the
string-to-date parsing is outside the claims). The `jti` field is unused. -/
structure AgentTokenResponse where
  token : String
  expires_at : Int
deriving DecidableEq, Repr

/-- The mutable fields of `class AuthState`: `userToken : string | null` and
`agentTokens : Map<string, CachedToken>`, the map embedded as an association
list keyed by `agentId`. -/
structure AuthState where
  userToken : Option String
  agentTokens : List (String × CachedToken)
deriving DecidableEq, Repr

/-- The state of a freshly constructed `AuthState` (`userToken = null`, empty map). -/
def AuthState.initial : AuthState := ⟨none, []⟩

/-- Embeds `setUserToken(token) { this.userToken = token }`. -/
def AuthState.setUserToken (s : AuthState) (t : String) : AuthState :=
  { s with userToken := some t }

/-- Embeds `getUserToken() { return this.userToken }`. -/
def AuthState.getUserToken (s : AuthState) : Option String :=
  s.userToken

/-- Embeds `isLoggedIn() { return this.userToken !== null }`. -/
def AuthState.isLoggedIn (s : AuthState) : Bool :=
  s.userToken ≠ none

/-- Embeds `requireUserToken()`: `if (!this.userToken) throw new Error("Not authenticated...")`.
JavaScript truthiness: the guard fires when `userToken` is `null` or the empty string. -/
def AuthState.requireUserToken (s : AuthState) : Except AuthError String :=
  match s.userToken with
  | none => .error .NotAuthenticated
  | some t => if t = "" then .error .NotAuthenticated else .ok t

/-- Embeds `Map.set` on the association list: overwrite the entry for `k` in place,
or append a new entry; all other entries are untouched. -/
def mapSet (k : String) (v : CachedToken) :
    List (String × CachedToken) → List (String × CachedToken)
  | [] => [(k, v)]
  | (k', v') :: rest => if k' = k then (k, v) :: rest else (k', v') :: mapSet k v rest

instance {ε α : Type} [DecidableEq ε] [DecidableEq α] : DecidableEq (Except ε α) := fun x y =>
  match x, y with
  | .ok a, .ok b =>
    if h : a = b then isTrue (by rw [h])
    else isFalse (by intro hc; injection hc; contradiction)
  | .error a, .error b =>
    if h : a = b then isTrue (by rw [h])
    else isFalse (by intro hc; injection hc; contradiction)
  | .ok _, .error _ => isFalse (by intro hc; exact Except.noConfusion hc)
  | .error _, .ok _ => isFalse (by intro hc; exact Except.noConfusion hc)

/-- Result of one `getAgentToken` call: the returned value or thrown error,
the `AuthState` afterwards, and how many `client.generateAgentToken`
requests were performed during the call. -/
structure AgentTokenResult where
  result : Except AuthError String
  state : AuthState
  mintCalls : Nat
deriving DecidableEq, Repr

/-- The tail of `getAgentToken` past the cache fast-path: `requireUserToken()`,
then `await this.client.generateAgentToken(userToken, agentId)`; on resolution
`this.agentTokens.set(agentId, { token, expiresAt })` and return the new token;
a rejection propagates with the cache untouched. The issuer is passed in as a
function of the user token and agent id. -/
def AuthState.mintAgentToken (s : AuthState) (agentId : String)
    (issuer : String → String → Except String AgentTokenResponse) : AgentTokenResult :=
  match s.requireUserToken with
  | .error e => ⟨.error e, s, 0⟩
  | .ok userToken =>
    match issuer userToken agentId with
    | .error msg => ⟨.error (.TokenIssuanceFailed msg), s, 1⟩
    | .ok r =>
      ⟨.ok r.token,
        { s with agentTokens := mapSet agentId ⟨r.token, r.expires_at⟩ s.agentTokens },
        1⟩

/-- Embeds `async getAgentToken(agentId)`: return the cached token when
`cached && cached.expiresAt - Date.now() > TOKEN_REFRESH_MARGIN_MS`,
otherwise mint through the human session.  `now` stands for `Date.now()`. -/
def AuthState.getAgentToken (s : AuthState) (agentId : String) (now : Int)
    (issuer : String → String → Except String AgentTokenResponse) : AgentTokenResult :=
  match s.agentTokens.lookup agentId with
  | some cached =>
    if cached.expiresAt - now > TOKEN_REFRESH_MARGIN_MS then
      ⟨.ok cached.token, s, 0⟩
    else
      s.mintAgentToken agentId issuer
  | none => s.mintAgentToken agentId issuer

/-- Embeds `clearAgentTokens() { this.agentTokens.clear() }`. -/
def AuthState.clearAgentTokens (s : AuthState) : AuthState :=
  { s with agentTokens := [] }

/-- An incoming HTTP request to the callback listener, abstracted to the two
values the handler reads: `url.pathname` and `url.searchParams.get("token")`
(`none` when the parameter is absent, `some ""` when it is present but empty). -/
structure HttpRequest where
  path : String
  tokenParam : Option String
deriving DecidableEq, Repr

/-- The three responses the handler can write: the 200 success page, the 400
failure page, and the bare 404. -/
inductive HttpResponse where
  | success200 : HttpResponse
  | failure400 : HttpResponse
  | notFound404 : HttpResponse
deriving DecidableEq, Repr

/-- State of one `browserLogin` attempt: `resolved` is the promise outcome
(settled at most once, with the captured token), `closed` records whether
`cleanup()` has run (`server.close()`: the socket is released and no request
is served afterwards). -/
structure ListenerState where
  resolved : Option String
  closed : Bool
deriving DecidableEq, Repr

/-- The listener right after `server.listen` succeeds: promise pending, socket open. -/
def listenerInit : ListenerState := ⟨none, false⟩

/-- Embeds `resolve({ token })` on a promise: settling is a no-op once settled. -/
def settleOnce (cur : Option String) (t : String) : Option String :=
  match cur with
  | some v => some v
  | none => some t

/-- The `http.createServer((req, res) => ...)` handler of `browserLogin`:
on `/callback` with a truthy `token` respond 200, run `cleanup()` and resolve;
with a missing or empty `token` respond 400 and keep listening; on any other
path respond 404.  A request after `cleanup()` gets no response at all —
the closed socket refuses the connection — embedded as `none`. -/
def handleRequest (st : ListenerState) (req : HttpRequest) :
    Option HttpResponse × ListenerState :=
  if st.closed then
    (none, st)
  else if req.path = "/callback" then
    match req.tokenParam with
    | some t =>
      if t = "" then
        (some .failure400, st)
      else
        (some .success200, { resolved := settleOnce st.resolved t, closed := true })
    | none => (some .failure400, st)
  else
    (some .notFound404, st)

/-- Embeds `const callbackUrl = http://localhost:PORT/callback` built in the
`server.listen` callback from the OS-assigned port. -/
def callbackUrl (port : Nat) : String :=
  "http://localhost:" ++ Nat.repr port ++ "/callback"

/-- Is `n` the code of a character `encodeURIComponent` leaves unescaped
(ASCII alphanumerics and `-_.!~*`, code 39, `()`)? -/
def isUnreservedURIChar (n : Nat) : Bool :=
  (65 ≤ n && n ≤ 90) || (97 ≤ n && n ≤ 122) || (48 ≤ n && n ≤ 57) ||
  n = 45 || n = 95 || n = 46 || n = 33 || n = 126 || n = 42 || n = 39 ||
  n = 40 || n = 41

/-- UTF-8 encoding of one code point, as byte values. -/
def utf8Bytes (n : Nat) : List Nat :=
  if n < 128 then [n]
  else if n < 2048 then [192 + n / 64, 128 + n % 64]
  else if n < 65536 then [224 + n / 4096, 128 + (n / 64) % 64, 128 + n % 64]
  else [240 + n / 262144, 128 + (n / 4096) % 64, 128 + (n / 64) % 64, 128 + n % 64]

/-- Uppercase hexadecimal digit for a value below 16. -/
def hexDigit (n : Nat) : Char :=
  if n < 10 then Char.ofNat (48 + n) else Char.ofNat (55 + n)

/-- The `%XX` percent-escape of one byte. -/
def percentByte (b : Nat) : String :=
  String.mk [Char.ofNat 37, hexDigit (b / 16), hexDigit (b % 16)]

/-- JavaScript `encodeURIComponent` over a character list: unreserved
characters pass through, every other character is percent-escaped byte by
byte in UTF-8. -/
def encodeChars : List Char → String
  | [] => ""
  | c :: cs =>
    (if isUnreservedURIChar c.toNat then String.mk [c]
     else String.join ((utf8Bytes c.toNat).map percentByte)) ++ encodeChars cs

/-- JavaScript `encodeURIComponent`. -/
def encodeURIComponent (s : String) : String :=
  encodeChars s.data

/-- Embeds `const loginUrl = WEBURL/auth/verify?mcp_callback=ENC` where `ENC` is
`encodeURIComponent(callbackUrl)` (src/browser-login.ts line 82). -/
def loginUrl (webUrl : String) (port : Nat) : String :=
  webUrl ++ "/auth/verify?mcp_callback=" ++ encodeURIComponent (callbackUrl port)

/-- Outcome of the awaited `browserLogin(webUrl)` promise as seen by the
`login` tool handler: resolution with a captured token, or rejection
(timeout, listener error) carrying the error message. -/
inductive LoginOutcome where
  | success : String → LoginOutcome
  | failure : String → LoginOutcome
deriving DecidableEq, Repr

/-- What one invocation of the `login` tool produces: the text content of the
reply, its `isError` flag, the `AuthState` afterwards, and whether the
browser-login flow (callback listener + browser launch) was started at all. -/
structure LoginResult where
  text : String
  isError : Bool
  state : AuthState
  flowStarted : Bool
deriving DecidableEq, Repr

/-- The `login` tool handler (src/server.ts lines 131-151): short-circuit with
"Already authenticated." when `auth.isLoggedIn()`; otherwise run
`browserLogin` — on resolution store the token via `setUserToken` and report
success, on rejection report the failure message with `isError`. -/
def loginTool (s : AuthState) (outcome : LoginOutcome) : LoginResult :=
  if s.isLoggedIn then
    ⟨"Already authenticated.", false, s, false⟩
  else
    match outcome with
    | .success t =>
      ⟨"Successfully authenticated with Aphorist.", false, s.setUserToken t, true⟩
    | .failure msg =>
      ⟨"Login failed: " ++ msg, true, s, true⟩

/-- A concrete issuer that always mints token "a1" expiring at epoch+10^7 ms. -/
def issuerA1 : String → String → Except String AgentTokenResponse :=
  fun _ _ => .ok ⟨"a1", 10000000⟩

/-- A concrete issuer whose minted token "s1" expires only 1000 ms after epoch,
i.e. less than the 5-minute refresh margin away. -/
def issuerShort : String → String → Except String AgentTokenResponse :=
  fun _ _ => .ok ⟨"s1", 1000⟩

/-- A concrete issuer that always fails with message "boom". -/
def issuerFail : String → String → Except String AgentTokenResponse :=
  fun _ _ => .error "boom"

lemma mintAgentToken_zero_calls (s : AuthState) (agentId : String)
    (issuer : String → String → Except String AgentTokenResponse)
    (h : (s.mintAgentToken agentId issuer).mintCalls = 0) :
    ∃ e, (s.mintAgentToken agentId issuer).result = .error e := by
  cases hr : s.requireUserToken with
  | error e => exact ⟨e, by simp [AuthState.mintAgentToken, hr]⟩
  | ok u =>
    cases hi : issuer u agentId with
    | error m => simp [AuthState.mintAgentToken, hr, hi] at h
    | ok r => simp [AuthState.mintAgentToken, hr, hi] at h

example :
    ((AuthState.initial.setUserToken "u").getAgentToken "bot1" 0
      (fun _ _ => .ok ⟨"a1", 3600000⟩)).result = .ok "a1" := by decide

example :
    (AuthState.initial.getAgentToken "bot1" 0
      (fun _ _ => .ok ⟨"a1", 3600000⟩)).result = .error .NotAuthenticated := by decide

example :
    encodeURIComponent (callbackUrl 8080) =
      "http%3A%2F%2Flocalhost%3A8080%2Fcallback" := by rfl

example :
    handleRequest listenerInit ⟨"/callback", some "tok"⟩ =
      (some .success200, ⟨some "tok", true⟩) := by decide

/-- C10: with the empty string stored as credential (`setUserToken("")`),
`isLoggedIn()` reports `true` (the field is not `null`) while
`requireUserToken()` still fails with `NotAuthenticated` (the empty string is
falsy): the two checks are not equivalent at the public interface. -/
theorem isLoggedIn_requireUserToken_mismatch :
    (AuthState.initial.setUserToken "").isLoggedIn = true ∧
    (AuthState.initial.setUserToken "").requireUserToken =
      .error .NotAuthenticated := by
  decide

/-- C7 counterexample: seeding the empty string is a `setToken(t)` call after
which `requireUserToken` does not return the seeded value `t = ""` — it fails
with `NotAuthenticated` instead, refuting the claim's "for every seeded
string t". -/
theorem requireUserToken_empty_seed_counterexample :
    (AuthState.initial.setUserToken "").requireUserToken ≠ .ok "" ∧
    (AuthState.initial.setUserToken "").requireUserToken =
      .error .NotAuthenticated := by
  decide

/-- C7 (amended): `requireUserToken` fails with `NotAuthenticated` on the
initial state; after `setUserToken t` it returns exactly `t` for every
non-empty seeded string `t`, and still fails with `NotAuthenticated` when the
seeded string is empty. -/
theorem requireUserToken_spec :
    AuthState.initial.requireUserToken = .error .NotAuthenticated ∧
    (∀ (s : AuthState) (t : String), t ≠ "" →
      (s.setUserToken t).requireUserToken = .ok t) ∧
    (∀ s : AuthState,
      (s.setUserToken "").requireUserToken = .error .NotAuthenticated) := by
  refine ⟨rfl, ?_, ?_⟩
  · intro s t ht
    simp [AuthState.setUserToken, AuthState.requireUserToken, ht]
  · intro s
    simp [AuthState.setUserToken, AuthState.requireUserToken]

/-- C7 witness: the amended theorem applied at the concrete seed "dev-token". -/
theorem requireUserToken_spec_witness :
    (AuthState.initial.setUserToken "dev-token").requireUserToken =
      .ok "dev-token" :=
  requireUserToken_spec.2.1 AuthState.initial "dev-token" (by decide)

/-- C1 counterexample: a session whose stored credential was overwritten with
the empty string (so `requireUserToken` fails with `NotAuthenticated`) but
whose cache still holds a fresh entry for "bot1": `getAgentToken` serves the
cached token with no error and no issuer call, because the cache lookup runs
before the credential check. -/
theorem getAgentToken_cache_hit_without_credential :
    ((((AuthState.initial.setUserToken "u").getAgentToken "bot1" 0
        issuerA1).state.setUserToken "").requireUserToken =
      .error .NotAuthenticated) ∧
    ((((AuthState.initial.setUserToken "u").getAgentToken "bot1" 0
        issuerA1).state.setUserToken "").getAgentToken "bot1" 0 issuerA1 =
      ⟨.ok "a1",
       ((AuthState.initial.setUserToken "u").getAgentToken "bot1" 0
         issuerA1).state.setUserToken "",
       0⟩) := by
  decide

/-- C1 (amended): when no human credential is stored (`requireUserToken`
fails) and the cache holds no fresh entry for `agentId`, `getAgentToken`
fails with `NotAuthenticated` before any issuer call, leaving the state
unchanged; a fresh cached entry, however, is served regardless of the
credential. -/
theorem getAgentToken_notAuthenticated_on_stale (s : AuthState)
    (agentId : String) (now : Int)
    (issuer : String → String → Except String AgentTokenResponse)
    (hauth : s.requireUserToken = .error .NotAuthenticated)
    (hstale : ∀ c, s.agentTokens.lookup agentId = some c →
      c.expiresAt - now ≤ TOKEN_REFRESH_MARGIN_MS) :
    s.getAgentToken agentId now issuer = ⟨.error .NotAuthenticated, s, 0⟩ := by
  cases hl : s.agentTokens.lookup agentId with
  | none =>
    simp [AuthState.getAgentToken, hl, AuthState.mintAgentToken, hauth]
  | some c =>
    have hnc := not_lt.mpr (hstale c hl)
    simp [AuthState.getAgentToken, hl, hnc, AuthState.mintAgentToken, hauth]

/-- C1 witness: the amended theorem at the empty initial state. -/
theorem getAgentToken_notAuthenticated_on_stale_witness :
    AuthState.initial.getAgentToken "bot1" 0 issuerA1 =
      ⟨.error .NotAuthenticated, AuthState.initial, 0⟩ :=
  getAgentToken_notAuthenticated_on_stale AuthState.initial "bot1" 0 issuerA1
    (by decide) (by intro c hc; exact Option.noConfusion hc)

/-- C2 counterexample: an issuer response expiring 1000 ms after epoch (well
inside the 5-minute margin) is minted at `now = 0` and its token "s1" is
handed out even though its `expiresAt` does not exceed `now` plus the
refresh margin. -/
theorem getAgentToken_fresh_mint_below_margin :
    ((AuthState.initial.setUserToken "u").getAgentToken "bot1" 0
        issuerShort).result = .ok "s1" ∧
    ((AuthState.initial.setUserToken "u").getAgentToken "bot1" 0
        issuerShort).state.agentTokens.lookup "bot1" =
      some ⟨"s1", 1000⟩ ∧
    ¬((1000 : Int) - 0 > TOKEN_REFRESH_MARGIN_MS) := by
  decide

/-- C2 (amended): every token `getAgentToken` returns without performing an
issuer call — i.e. every cache-served token — comes from a cache entry whose
`expiresAt` exceeds `now` plus the 5-minute refresh margin at the moment it
is handed out; freshly minted tokens are returned as received, with no such
guarantee. -/
theorem getAgentToken_cached_margin (s : AuthState) (agentId : String)
    (now : Int) (issuer : String → String → Except String AgentTokenResponse)
    (t : String)
    (h0 : (s.getAgentToken agentId now issuer).mintCalls = 0)
    (hok : (s.getAgentToken agentId now issuer).result = .ok t) :
    ∃ c, s.agentTokens.lookup agentId = some c ∧ c.token = t ∧
      c.expiresAt - now > TOKEN_REFRESH_MARGIN_MS := by
  cases hl : s.agentTokens.lookup agentId with
  | none =>
    simp only [AuthState.getAgentToken, hl] at h0 hok
    obtain ⟨e, he⟩ := mintAgentToken_zero_calls s agentId issuer h0
    rw [he] at hok
    exact absurd hok (by simp)
  | some c =>
    by_cases hfresh : c.expiresAt - now > TOKEN_REFRESH_MARGIN_MS
    · simp only [AuthState.getAgentToken, hl, if_pos hfresh,
        Except.ok.injEq] at hok
      exact ⟨c, rfl, hok, hfresh⟩
    · simp only [AuthState.getAgentToken, hl, if_neg hfresh] at h0 hok
      obtain ⟨e, he⟩ := mintAgentToken_zero_calls s agentId issuer h0
      rw [he] at hok
      exact absurd hok (by simp)

/-- C2 witness: the amended theorem at a state holding a fresh cached token. -/
theorem getAgentToken_cached_margin_witness :
    ∃ c, (AuthState.mk (some "u") [("bot1", ⟨"a1", 10000000⟩)]).agentTokens.lookup
        "bot1" = some c ∧ c.token = "a1" ∧
      c.expiresAt - 0 > TOKEN_REFRESH_MARGIN_MS :=
  getAgentToken_cached_margin (AuthState.mk (some "u") [("bot1", ⟨"a1", 10000000⟩)])
    "bot1" 0 issuerA1 "a1" (by decide) (by decide)

lemma lookup_mapSet_self (k : String) (v : CachedToken)
    (l : List (String × CachedToken)) : (mapSet k v l).lookup k = some v := by
  induction l with
  | nil => simp [mapSet, List.lookup]
  | cons hd tl ih =>
    obtain ⟨k', v'⟩ := hd
    by_cases h : k' = k
    · simp [mapSet, h, List.lookup]
    · have hne : (k == k') = false := beq_eq_false_iff_ne.mpr (Ne.symm h)
      simp [mapSet, h, List.lookup, hne, ih]

lemma mintAgentToken_no_free_hit (s : AuthState) (agentId : String)
    (issuer : String → String → Except String AgentTokenResponse) (t : String)
    (s' : AuthState) : s.mintAgentToken agentId issuer ≠ ⟨.ok t, s', 0⟩ := by
  intro h
  cases hr : s.requireUserToken with
  | error e => simp [AuthState.mintAgentToken, hr] at h
  | ok u =>
    cases hi : issuer u agentId with
    | error m => simp [AuthState.mintAgentToken, hr, hi] at h
    | ok r => simp [AuthState.mintAgentToken, hr, hi] at h

lemma getAgentToken_miss_success (s : AuthState) (agentId : String) (now : Int)
    (issuer : String → String → Except String AgentTokenResponse) (u : String)
    (r : AgentTokenResponse) (hauth : s.requireUserToken = .ok u)
    (hstale : ∀ c, s.agentTokens.lookup agentId = some c →
      c.expiresAt - now ≤ TOKEN_REFRESH_MARGIN_MS)
    (hiss : issuer u agentId = .ok r) :
    s.getAgentToken agentId now issuer =
      ⟨.ok r.token,
       { s with agentTokens := mapSet agentId ⟨r.token, r.expires_at⟩ s.agentTokens },
       1⟩ := by
  cases hl : s.agentTokens.lookup agentId with
  | none =>
    simp [AuthState.getAgentToken, hl, AuthState.mintAgentToken, hauth, hiss]
  | some c =>
    have hnc := not_lt.mpr (hstale c hl)
    simp [AuthState.getAgentToken, hl, hnc, AuthState.mintAgentToken, hauth, hiss]

/-- C3: for a cached entry, `getAgentToken` serves the cached token with no
issuer call exactly when `expiresAt - now` exceeds the fixed 5-minute margin;
otherwise (stale or missing entry) one issuer call is made, the cache entry
is overwritten with the returned token and expiry, and the new token is
returned; hence two calls within the margin yield the same token string with
a single mint. Stated for a session whose credential check succeeds. -/
theorem getAgentToken_cache_policy (s : AuthState) (agentId : String)
    (now now' : Int)
    (issuer : String → String → Except String AgentTokenResponse) (u : String)
    (r : AgentTokenResponse) (hauth : s.requireUserToken = .ok u) :
    (∀ c, s.agentTokens.lookup agentId = some c →
      (s.getAgentToken agentId now issuer = ⟨.ok c.token, s, 0⟩ ↔
        c.expiresAt - now > TOKEN_REFRESH_MARGIN_MS)) ∧
    ((∀ c, s.agentTokens.lookup agentId = some c →
        c.expiresAt - now ≤ TOKEN_REFRESH_MARGIN_MS) →
      issuer u agentId = .ok r →
      s.getAgentToken agentId now issuer =
        ⟨.ok r.token,
         { s with
            agentTokens := mapSet agentId ⟨r.token, r.expires_at⟩ s.agentTokens },
         1⟩) ∧
    ((∀ c, s.agentTokens.lookup agentId = some c →
        c.expiresAt - now ≤ TOKEN_REFRESH_MARGIN_MS) →
      issuer u agentId = .ok r →
      r.expires_at - now' > TOKEN_REFRESH_MARGIN_MS →
      (s.getAgentToken agentId now issuer).result = .ok r.token ∧
      (s.getAgentToken agentId now issuer).mintCalls = 1 ∧
      (s.getAgentToken agentId now issuer).state.getAgentToken agentId now'
          issuer =
        ⟨.ok r.token, (s.getAgentToken agentId now issuer).state, 0⟩) := by
  refine ⟨?_, ?_, ?_⟩
  · intro c hl
    constructor
    · intro heq
      by_contra hfresh
      simp only [AuthState.getAgentToken, hl, if_neg hfresh] at heq
      exact mintAgentToken_no_free_hit s agentId issuer c.token s heq
    · intro hfresh
      simp [AuthState.getAgentToken, hl, if_pos hfresh]
  · intro hstale hiss
    exact getAgentToken_miss_success s agentId now issuer u r hauth hstale hiss
  · intro hstale hiss hfresh'
    have h1 := getAgentToken_miss_success s agentId now issuer u r hauth hstale hiss
    rw [h1]
    refine ⟨rfl, rfl, ?_⟩
    have hl2 : (mapSet agentId ⟨r.token, r.expires_at⟩ s.agentTokens).lookup
        agentId = some ⟨r.token, r.expires_at⟩ :=
      lookup_mapSet_self agentId ⟨r.token, r.expires_at⟩ s.agentTokens
    simp [AuthState.getAgentToken, hl2, if_pos hfresh']

/-- C3 witness: from a fresh session with credential "u" and empty cache, the
first call at `now = 0` mints "a1" once, and a second call 1000 ms later
returns the identical token with no further mint. -/
theorem getAgentToken_cache_policy_witness :
    ((AuthState.initial.setUserToken "u").getAgentToken "bot1" 0
        issuerA1).result = .ok "a1" ∧
    ((AuthState.initial.setUserToken "u").getAgentToken "bot1" 0
        issuerA1).mintCalls = 1 ∧
    ((AuthState.initial.setUserToken "u").getAgentToken "bot1" 0
        issuerA1).state.getAgentToken "bot1" 1000 issuerA1 =
      ⟨.ok "a1",
       ((AuthState.initial.setUserToken "u").getAgentToken "bot1" 0
         issuerA1).state,
       0⟩ :=
  (getAgentToken_cache_policy (AuthState.initial.setUserToken "u") "bot1" 0 1000
      issuerA1 "u" ⟨"a1", 10000000⟩ (by decide)).2.2
    (by intro c hc; exact Option.noConfusion hc) (by decide) (by decide)

/-- C4: when the issuer call made by `getAgentToken` fails, the error is
propagated as `TokenIssuanceFailed` and the state is exactly the state before
the call — the stale entry for that agentId and every other cache entry are
untouched. -/
theorem getAgentToken_issuer_failure_preserves_cache (s : AuthState)
    (agentId : String) (now : Int)
    (issuer : String → String → Except String AgentTokenResponse) (u : String)
    (msg : String)
    (hstale : ∀ c, s.agentTokens.lookup agentId = some c →
      c.expiresAt - now ≤ TOKEN_REFRESH_MARGIN_MS)
    (hauth : s.requireUserToken = .ok u)
    (hiss : issuer u agentId = .error msg) :
    s.getAgentToken agentId now issuer =
      ⟨.error (.TokenIssuanceFailed msg), s, 1⟩ := by
  cases hl : s.agentTokens.lookup agentId with
  | none =>
    simp [AuthState.getAgentToken, hl, AuthState.mintAgentToken, hauth, hiss]
  | some c =>
    have hnc := not_lt.mpr (hstale c hl)
    simp [AuthState.getAgentToken, hl, hnc, AuthState.mintAgentToken, hauth, hiss]

/-- C4 witness: with a stale entry for "bot1" cached, a failing issuer leaves
the state — stale entry included — exactly as it was. -/
theorem getAgentToken_issuer_failure_preserves_cache_witness :
    (AuthState.mk (some "u") [("bot1", ⟨"old", 1000⟩)]).getAgentToken "bot1" 0
        issuerFail =
      ⟨.error (.TokenIssuanceFailed "boom"),
       AuthState.mk (some "u") [("bot1", ⟨"old", 1000⟩)], 1⟩ :=
  getAgentToken_issuer_failure_preserves_cache
    (AuthState.mk (some "u") [("bot1", ⟨"old", 1000⟩)]) "bot1" 0 issuerFail "u"
    "boom"
    (by intro c hc; simp [List.lookup] at hc; subst hc; decide)
    (by decide) (by decide)

/-- C8: when the session already holds a human credential the `login` tool
returns "Already authenticated." immediately with the state unchanged and
without starting the browser-login flow; and after any completed successful
login the session is authenticated, so a second `login` call is exactly such
a no-op. -/
theorem login_idempotent :
    (∀ (s : AuthState) (out : LoginOutcome), s.isLoggedIn = true →
      loginTool s out = ⟨"Already authenticated.", false, s, false⟩) ∧
    (∀ (s : AuthState) (t : String) (out : LoginOutcome),
      loginTool (loginTool s (.success t)).state out =
        ⟨"Already authenticated.", false, (loginTool s (.success t)).state,
         false⟩) := by
  have hshort : ∀ (s : AuthState) (out : LoginOutcome), s.isLoggedIn = true →
      loginTool s out = ⟨"Already authenticated.", false, s, false⟩ := by
    intro s out h
    simp [loginTool, h]
  refine ⟨hshort, ?_⟩
  intro s t out
  by_cases hs : s.isLoggedIn
  · rw [hshort s (.success t) hs]
    exact hshort s out hs
  · have hs' : (loginTool s (.success t)).state = s.setUserToken t := by
      simp [loginTool, hs]
    rw [hs']
    exact hshort (s.setUserToken t) out (by
      simp [AuthState.setUserToken, AuthState.isLoggedIn])

/-- C8 witness: with credential "tok" already stored, a `login` call — here
one whose browser flow would have failed — is a pure no-op. -/
theorem login_idempotent_witness :
    loginTool (AuthState.initial.setUserToken "tok") (.failure "timed out") =
      ⟨"Already authenticated.", false, AuthState.initial.setUserToken "tok",
       false⟩ :=
  login_idempotent.1 (AuthState.initial.setUserToken "tok")
    (.failure "timed out") (by decide)

/-- C5 counterexample: after a first valid callback request settles the
attempt, a second identical request is not answered with a 404 — the listener
socket is closed and the request gets no response at all. -/
theorem callback_second_request_no_response :
    handleRequest listenerInit ⟨"/callback", some "tok"⟩ =
      (some .success200, ⟨some "tok", true⟩) ∧
    handleRequest ⟨some "tok", true⟩ ⟨"/callback", some "tok"⟩ =
      (none, ⟨some "tok", true⟩) ∧
    (none : Option HttpResponse) ≠ some .notFound404 := by
  decide

/-- C5 (amended): for any non-empty `t`, a first `GET /callback?token=t` on
the pending listener settles the outcome with `t` and is answered with the
200 success page; every request arriving after that settlement leaves the
resolved value unchanged and receives no response at all (the closed socket
refuses the connection) rather than a not-found response. -/
theorem callback_settles_once (t : String) (ht : t ≠ "") :
    handleRequest listenerInit ⟨"/callback", some t⟩ =
      (some .success200, ⟨some t, true⟩) ∧
    (∀ req : HttpRequest,
      handleRequest ⟨some t, true⟩ req = (none, ⟨some t, true⟩)) := by
  constructor
  · simp [handleRequest, listenerInit, settleOnce, ht]
  · intro req
    simp [handleRequest]

/-- C5 witness: the amended theorem at token "tok" and a concrete follow-up
request. -/
theorem callback_settles_once_witness :
    handleRequest listenerInit ⟨"/callback", some "tok"⟩ =
      (some .success200, ⟨some "tok", true⟩) ∧
    handleRequest ⟨some "tok", true⟩ ⟨"/callback", some "other"⟩ =
      (none, ⟨some "tok", true⟩) :=
  ⟨(callback_settles_once "tok" (by decide)).1,
   (callback_settles_once "tok" (by decide)).2 ⟨"/callback", some "other"⟩⟩

/-- C6: on an open, pending listener, a `/callback` request with a missing or
empty `token` parameter is answered with the 400 failure page and changes
nothing — the outcome stays unsettled and the listener keeps running, so a
later request with a non-empty token still settles the attempt; a request to
any other path is answered 404 without affecting the outcome. -/
theorem callback_invalid_keeps_listening (st : ListenerState)
    (req : HttpRequest) (hopen : st.closed = false)
    (hpending : st.resolved = none) :
    (req.path = "/callback" →
      (req.tokenParam = none ∨ req.tokenParam = some "") →
      handleRequest st req = (some .failure400, st)) ∧
    (req.path ≠ "/callback" →
      handleRequest st req = (some .notFound404, st)) ∧
    (∀ t : String, t ≠ "" →
      handleRequest st ⟨"/callback", some t⟩ =
        (some .success200, ⟨some t, true⟩)) := by
  refine ⟨?_, ?_, ?_⟩
  · intro hp htok
    rcases htok with h | h <;> simp [handleRequest, hopen, hp, h]
  · intro hp
    simp [handleRequest, hopen, hp]
  · intro t ht
    simp [handleRequest, hopen, hpending, settleOnce, ht]

/-- C6 witness: on the fresh listener, a token-less callback request gets the
failure page and leaves the listener pending, after which "tok" still
settles it. -/
theorem callback_invalid_keeps_listening_witness :
    handleRequest listenerInit ⟨"/callback", none⟩ =
      (some .failure400, listenerInit) ∧
    handleRequest listenerInit ⟨"/other", some "x"⟩ =
      (some .notFound404, listenerInit) ∧
    handleRequest listenerInit ⟨"/callback", some "tok"⟩ =
      (some .success200, ⟨some "tok", true⟩) :=
  ⟨(callback_invalid_keeps_listening listenerInit ⟨"/callback", none⟩ rfl
      rfl).1 rfl (Or.inl rfl),
   (callback_invalid_keeps_listening listenerInit ⟨"/other", some "x"⟩ rfl
      rfl).2.1 (by decide),
   (callback_invalid_keeps_listening listenerInit ⟨"/callback", none⟩ rfl
      rfl).2.2 "tok" (by decide)⟩

lemma digitChar_unreserved (n : Nat) (h : n < 10) :
    isUnreservedURIChar (Nat.digitChar n).toNat = true := by
  interval_cases n <;> decide

lemma toDigitsCore_unreserved :
    ∀ (f n : Nat) (l : List Char),
      (∀ c ∈ l, isUnreservedURIChar c.toNat = true) →
      ∀ c ∈ Nat.toDigitsCore 10 f n l, isUnreservedURIChar c.toNat = true := by
  intro f
  induction f with
  | zero =>
    intro n l hl c hc
    exact hl c hc
  | succ f ih =>
    intro n l hl c hc
    have hd : isUnreservedURIChar (Nat.digitChar (n % 10)).toNat = true :=
      digitChar_unreserved (n % 10) (Nat.mod_lt _ (by norm_num))
    simp only [Nat.toDigitsCore] at hc
    by_cases h0 : n / 10 = 0
    · rw [if_pos h0] at hc
      rcases List.mem_cons.mp hc with h | h
      · exact h ▸ hd
      · exact hl c h
    · rw [if_neg h0] at hc
      refine ih (n / 10) (Nat.digitChar (n % 10) :: l) ?_ c hc
      intro c' hc'
      rcases List.mem_cons.mp hc' with h | h
      · exact h ▸ hd
      · exact hl c' h

lemma repr_unreserved (n : Nat) :
    ∀ c ∈ (Nat.repr n).data, isUnreservedURIChar c.toNat = true := by
  intro c hc
  have : (Nat.repr n).data = Nat.toDigitsCore 10 (n + 1) n [] := rfl
  rw [this] at hc
  exact toDigitsCore_unreserved (n + 1) n [] (by intro c' hc'; cases hc') c hc

lemma encodeChars_append (l₁ l₂ : List Char) :
    encodeChars (l₁ ++ l₂) = encodeChars l₁ ++ encodeChars l₂ := by
  induction l₁ with
  | nil => simp [encodeChars]
  | cons c cs ih => simp [encodeChars, ih, String.append_assoc]

lemma encodeChars_id_of_unreserved (l : List Char)
    (h : ∀ c ∈ l, isUnreservedURIChar c.toNat = true) :
    encodeChars l = String.mk l := by
  induction l with
  | nil => rfl
  | cons c cs ih =>
    have hc := h c (by simp)
    have hcs := ih (by intro c' hc'; exact h c' (by simp [hc']))
    simp only [encodeChars, hc, if_pos, hcs]
    rfl

/-- C9 counterexample: at port 8080 the callback URL the code embeds is
`http://localhost:8080/callback`, not the loopback-literal
`http://127.0.0.1:8080/callback` the claim designates. -/
theorem callbackUrl_not_loopback_literal :
    callbackUrl 8080 ≠ "http://127.0.0.1:8080/callback" ∧
    callbackUrl 8080 = "http://localhost:8080/callback" := by
  constructor
  · decide
  · rfl

/-- C9 (amended): for every `webBaseUrl` and every port `p`, the emitted
login URL equals `webBaseUrl ++ "/auth/verify?mcp_callback=" ++` the
URL-encoding of the callback URL, fully expanded here; the embedded callback
URL is `http://localhost:p/callback` (the host literal is `localhost`, while
the listener itself binds interface 127.0.0.1). -/
theorem loginUrl_structure (webUrl : String) (port : Nat) :
    loginUrl webUrl port =
      webUrl ++ "/auth/verify?mcp_callback=http%3A%2F%2Flocalhost%3A" ++
        Nat.repr port ++ "%2Fcallback" ∧
    callbackUrl port = "http://localhost:" ++ Nat.repr port ++ "/callback" := by
  refine ⟨?_, rfl⟩
  have henc : encodeURIComponent (callbackUrl port) =
      "http%3A%2F%2Flocalhost%3A" ++ Nat.repr port ++ "%2Fcallback" := by
    show encodeChars (("http://localhost:" ++ Nat.repr port ++ "/callback")).data =
      "http%3A%2F%2Flocalhost%3A" ++ Nat.repr port ++ "%2Fcallback"
    rw [String.data_append, String.data_append, encodeChars_append,
      encodeChars_append]
    have h1 : encodeChars (String.data "http://localhost:") =
        "http%3A%2F%2Flocalhost%3A" := rfl
    have h2 : encodeChars (String.data "/callback") = "%2Fcallback" := rfl
    have h3 : encodeChars (Nat.repr port).data = Nat.repr port := by
      rw [encodeChars_id_of_unreserved (Nat.repr port).data (repr_unreserved port)]
    rw [h1, h2, h3]
  unfold loginUrl
  rw [henc]
  simp only [← String.append_assoc]
  congr 2
  rw [String.append_assoc]
  exact congrArg (webUrl ++ ·) rfl

/-- C9 witness: the amended theorem evaluated at `webBaseUrl = "https://aphori.st"`
and port 8080. -/
theorem loginUrl_structure_witness :
    loginUrl "https://aphori.st" 8080 =
      "https://aphori.st" ++ "/auth/verify?mcp_callback=http%3A%2F%2Flocalhost%3A" ++
        Nat.repr 8080 ++ "%2Fcallback" :=
  (loginUrl_structure "https://aphori.st" 8080).1
